import Mathlib

/-!
Shallow embedding of the fluxapay contract modules
(src/fluxapay/src/lib.rs, access_control.rs, merchant_registry.rs).

Host collaborators are abstracted as in the spec's §5/§9:
* addresses (`Address`) are `Nat`, symbols (`Symbol`) are `String`,
  32-byte hashes (`BytesN<32>`) are `Nat`;
* the ledger clock (`env.ledger().timestamp()`) is an explicit `now : Nat`
  argument to every operation that reads it;
* `require_auth()` is the host capability check, resolved before the
  operation body runs, so it does not appear in the embedding;
* the persistent store of each contract is a record of typed maps, one
  field per `DataKey` namespace; `storage().set` is a pointwise function
  update, `storage().get(..).unwrap_or(d)` is a read with default;
* event publication has no observable effect on the store and is omitted.

Fallible operations return `Except Err α × State`: the state is threaded
through errors so that "the store is unchanged on failure" is statable.
-/

namespace Fluxapay

abbrev Addr := Nat
abbrev Sym := String
abbrev Hash := Nat

/-! ## AccessControl (src/fluxapay/src/access_control.rs) -/

def roleAdmin : Sym := "ADMIN"

def roleOracle : Sym := "ORACLE"

def roleMerchant : Sym := "MERCHANT"

def roleSettlementOperator : Sym := "SETTLEMENT_OPERATOR"

inductive AccessControlError where
  | Unauthorized
  | RoleAlreadyGranted
  | RoleNotGranted
  | CannotRenounceAdmin
  | InvalidAdmin
deriving DecidableEq, Repr

/-- Store of the AccessControl component: `Role(role, account) -> bool`
entries (absence reads as `false` via `unwrap_or(false)`, so removal is
modelled as setting `false`) and the `Admin` singleton key. -/
structure ACState where
  roles : Sym → Addr → Bool
  admin : Option Addr

def acEmpty : ACState := { roles := fun _ _ => false, admin := none }

namespace AccessControl

def has_role (s : ACState) (role : Sym) (account : Addr) : Bool :=
  s.roles role account

def grant_role_internal (s : ACState) (role : Sym) (account : Addr) : ACState :=
  { s with roles := fun r a => if r = role ∧ a = account then true else s.roles r a }

def revoke_role_internal (s : ACState) (role : Sym) (account : Addr) : ACState :=
  { s with roles := fun r a => if r = role ∧ a = account then false else s.roles r a }

def init (s : ACState) (admin : Addr) : ACState :=
  grant_role_internal { s with admin := some admin } roleAdmin admin

def grant_role (s : ACState) (caller : Addr) (role : Sym) (account : Addr) :
    Except AccessControlError Unit × ACState :=
  if !(has_role s roleAdmin caller) then (.error .Unauthorized, s)
  else if has_role s role account then (.error .RoleAlreadyGranted, s)
  else (.ok (), grant_role_internal s role account)

def revoke_role (s : ACState) (caller : Addr) (role : Sym) (account : Addr) :
    Except AccessControlError Unit × ACState :=
  if !(has_role s roleAdmin caller) then (.error .Unauthorized, s)
  else if !(has_role s role account) then (.error .RoleNotGranted, s)
  else (.ok (), revoke_role_internal s role account)

def renounce_role (s : ACState) (account : Addr) (role : Sym) :
    Except AccessControlError Unit × ACState :=
  if role = roleAdmin then (.error .CannotRenounceAdmin, s)
  else if !(has_role s role account) then (.error .RoleNotGranted, s)
  else (.ok (), revoke_role_internal s role account)

def transfer_admin (s : ACState) (current_admin new_admin : Addr) :
    Except AccessControlError Unit × ACState :=
  if !(has_role s roleAdmin current_admin) then (.error .Unauthorized, s)
  else
    let s1 := revoke_role_internal s roleAdmin current_admin
    let s2 := grant_role_internal s1 roleAdmin new_admin
    (.ok (), { s2 with admin := some new_admin })

def get_admin (s : ACState) : Option Addr := s.admin

end AccessControl

/-! ## MerchantRegistry (src/fluxapay/src/merchant_registry.rs) -/

structure Merchant where
  merchant_id : Addr
  business_name : String
  settlement_currency : String
  verified : Bool
  active : Bool
  created_at : Nat
deriving DecidableEq, Repr

inductive MRError where
  | MerchantAlreadyExists
  | MerchantNotFound
  | Unauthorized
  | NotVerified
  | AdminAlreadySet
deriving DecidableEq, Repr

/-- Store of the MerchantRegistry component: `Merchant(merchant_id)`
records and its own `Admin` singleton key (a namespace separate from
AccessControl's admin). -/
structure MRState where
  merchants : Addr → Option Merchant
  admin : Option Addr

def mrEmpty : MRState := { merchants := fun _ => none, admin := none }

namespace MerchantRegistry

def init (s : MRState) (admin : Addr) : Except MRError Unit × MRState :=
  if s.admin.isSome then (.error .AdminAlreadySet, s)
  else (.ok (), { s with admin := some admin })

def register_merchant (s : MRState) (now : Nat) (merchant_id : Addr)
    (business_name settlement_currency : String) : Except MRError Unit × MRState :=
  if (s.merchants merchant_id).isSome then (.error .MerchantAlreadyExists, s)
  else
    let m : Merchant :=
      { merchant_id := merchant_id
        business_name := business_name
        settlement_currency := settlement_currency
        verified := false
        active := true
        created_at := now }
    (.ok (), { s with merchants := fun k => if k = merchant_id then some m else s.merchants k })

def update_merchant (s : MRState) (merchant_id : Addr)
    (business_name : Option String) (settlement_currency : Option String)
    (active : Option Bool) : Except MRError Unit × MRState :=
  match s.merchants merchant_id with
  | none => (.error .MerchantNotFound, s)
  | some m =>
    let m1 := match business_name with
      | some name => { m with business_name := name }
      | none => m
    let m2 := match settlement_currency with
      | some currency => { m1 with settlement_currency := currency }
      | none => m1
    let m3 := match active with
      | some is_active => { m2 with active := is_active }
      | none => m2
    (.ok (), { s with merchants := fun k => if k = merchant_id then some m3 else s.merchants k })

def get_merchant (s : MRState) (merchant_id : Addr) : Except MRError Merchant :=
  match s.merchants merchant_id with
  | none => .error .MerchantNotFound
  | some m => .ok m

def verify_merchant (s : MRState) (admin merchant_id : Addr) :
    Except MRError Unit × MRState :=
  match s.admin with
  | none => (.error .Unauthorized, s)
  | some stored_admin =>
    if admin ≠ stored_admin then (.error .Unauthorized, s)
    else
      match s.merchants merchant_id with
      | none => (.error .MerchantNotFound, s)
      | some m =>
        let m1 := { m with verified := true }
        (.ok (), { s with merchants := fun k => if k = merchant_id then some m1 else s.merchants k })

end MerchantRegistry

/-! ## PaymentProcessor / RefundManager (src/fluxapay/src/lib.rs)

The `lib.rs` in the repository is a corrupted interleaving of the
PaymentProcessor and RefundManager sources: each function body below is
embedded from its contiguous readable logic, and fragments that
syntactically belong to the other function (e.g. the `refund_id` push
inside `create_payment`, lines 186–190) are attributed to the function
they came from. Where a body is truncated by the interleaving, the
missing success-path tail is modelled from the spec and marked as such.
-/

inductive PaymentStatus where
  | Pending
  | Confirmed
  | Expired
  | Failed
deriving DecidableEq, Repr

structure PaymentCharge where
  payment_id : String
  merchant_id : Addr
  amount : Int
  currency : Sym
  deposit_address : Addr
  status : PaymentStatus
  payer_address : Option Addr
  transaction_hash : Option Hash
  created_at : Nat
  confirmed_at : Option Nat
  expires_at : Nat
deriving DecidableEq, Repr

inductive RefundStatus where
  | Pending
  | Approved
  | Completed
  | Rejected
deriving DecidableEq, Repr

structure Refund where
  refund_id : String
  payment_id : String
  amount : Int
  reason : String
  status : RefundStatus
  created_at : Nat
  processed_at : Option Nat
  requester : Addr
deriving DecidableEq, Repr

/-- Error codes used by the readable bodies in lib.rs (the `Error` enum
there has duplicated discriminants from the interleaving; the embedding
keeps the distinct names the code actually uses). -/
inductive Error where
  | PaymentNotFound
  | PaymentAlreadyExists
  | InvalidAmount
  | Unauthorized
  | AccessControlError
  | PaymentExpired
  | PaymentAlreadyProcessed
  | InvalidPaymentId
  | RefundNotFound
  | RefundAlreadyProcessed
deriving DecidableEq, Repr

/-- Store of the PaymentProcessor/RefundManager contract:
`Payment(payment_id)`, `Refund(refund_id)`, `PaymentRefunds(payment_id)`
(absence reads as the empty vector) and `RefundCounter` (absence reads
as 0 via `unwrap_or(0)`). -/
structure PPState where
  payments : String → Option PaymentCharge
  refunds : String → Option Refund
  paymentRefunds : String → List String
  refundCounter : Nat

def ppEmpty : PPState :=
  { payments := fun _ => none
    refunds := fun _ => none
    paymentRefunds := fun _ => []
    refundCounter := 0 }

namespace PaymentProcessor

def setPayment (s : PPState) (pid : String) (p : PaymentCharge) : PPState :=
  { s with payments := fun k => if k = pid then some p else s.payments k }

def setRefund (s : PPState) (rid : String) (r : Refund) : PPState :=
  { s with refunds := fun k => if k = rid then some r else s.refunds k }

def create_payment (s : PPState) (now : Nat) (payment_id : String)
    (merchant_id : Addr) (amount : Int) (currency : Sym)
    (deposit_address : Addr) (expires_at : Nat) :
    Except Error PaymentCharge × PPState :=
  if amount ≤ 0 then (.error .InvalidAmount, s)
  else if (s.payments payment_id).isSome then (.error .PaymentAlreadyExists, s)
  else if payment_id = "" then (.error .InvalidPaymentId, s)
  else
    let payment : PaymentCharge :=
      { payment_id := payment_id
        merchant_id := merchant_id
        amount := amount
        currency := currency
        deposit_address := deposit_address
        status := .Pending
        payer_address := none
        transaction_hash := none
        created_at := now
        confirmed_at := none
        expires_at := expires_at }
    (.ok payment, setPayment s payment_id payment)

def verify_payment (s : PPState) (now : Nat) (payment_id : String)
    (transaction_hash : Hash) (payer_address : Addr) (amount_received : Int) :
    Except Error PaymentStatus × PPState :=
  match s.payments payment_id with
  | none => (.error .PaymentNotFound, s)
  | some payment =>
    if payment.status ≠ .Pending then (.error .PaymentAlreadyProcessed, s)
    else if payment.expires_at < now then (.error .PaymentExpired, s)
    else if amount_received ≠ payment.amount then
      (.ok .Failed, setPayment s payment_id { payment with status := .Failed })
    else
      (.ok .Confirmed,
        setPayment s payment_id
          { payment with
            status := .Confirmed
            payer_address := some payer_address
            transaction_hash := some transaction_hash
            confirmed_at := some now })

def get_payment (s : PPState) (payment_id : String) : Except Error PaymentCharge :=
  match s.payments payment_id with
  | none => .error .PaymentNotFound
  | some payment => .ok payment

def cancel_payment (s : PPState) (now : Nat) (payment_id : String) :
    Except Error Unit × PPState :=
  match s.payments payment_id with
  | none => (.error .PaymentNotFound, s)
  | some payment =>
    if payment.status ≠ .Pending then (.error .PaymentAlreadyProcessed, s)
    else if now ≤ payment.expires_at then (.error .Unauthorized, s)
    else (.ok (), setPayment s payment_id { payment with status := .Expired })

/-- Rendering of the refund counter as a refund id: the literal table of
`create_refund` (lib.rs lines 119–131) — counters 1–10 map to distinct
literals, every other counter falls to the single literal "refund_n". -/
def refundIdString (counter : Nat) : String :=
  match counter with
  | 1 => "refund_1"
  | 2 => "refund_2"
  | 3 => "refund_3"
  | 4 => "refund_4"
  | 5 => "refund_5"
  | 6 => "refund_6"
  | 7 => "refund_7"
  | 8 => "refund_8"
  | 9 => "refund_9"
  | 10 => "refund_10"
  | _ => "refund_n"

def get_next_refund_id (s : PPState) : Nat × PPState :=
  let counter := (s.refundCounter + 1) % 2 ^ 64
  (counter, { s with refundCounter := counter })

/-- Embedded from lib.rs lines 107–134 (validation, counter increment and
the literal id table). The body is truncated by the file interleaving
after `refund_id` is chosen; the success tail is modelled from the spec:
store the Pending refund under `Refund(refund_id)`, append the id to
`PaymentRefunds(payment_id)`, return the id. -/
def create_refund (s : PPState) (now : Nat) (payment_id : String)
    (refund_amount : Int) (reason : String) (requester : Addr) :
    Except Error String × PPState :=
  if refund_amount ≤ 0 then (.error .InvalidAmount, s)
  else
    let next := get_next_refund_id s
    let counter := next.1
    let s1 := next.2
    let refund_id := refundIdString counter
    let refund : Refund :=
      { refund_id := refund_id
        payment_id := payment_id
        amount := refund_amount
        reason := reason
        status := .Pending
        created_at := now
        processed_at := none
        requester := requester }
    let s2 := setRefund s1 refund_id refund
    let s3 :=
      { s2 with paymentRefunds := fun k =>
          if k = payment_id then s2.paymentRefunds payment_id ++ [refund_id]
          else s2.paymentRefunds k }
    (.ok refund_id, s3)

def get_refund (s : PPState) (refund_id : String) : Except Error Refund :=
  match s.refunds refund_id with
  | none => .error .RefundNotFound
  | some refund => .ok refund

/-- Embedded from lib.rs lines 197–213 (role check, lookup, status guard,
status/processed_at update). The body is truncated by the file
interleaving after the fields are set; the success tail (persisting the
updated refund) is modelled from the spec. -/
def process_refund (ac : ACState) (s : PPState) (now : Nat)
    (operator : Addr) (refund_id : String) : Except Error Unit × PPState :=
  let has_settlement := AccessControl.has_role ac roleSettlementOperator operator
  let has_oracle := AccessControl.has_role ac roleOracle operator
  if !has_settlement && !has_oracle then (.error .Unauthorized, s)
  else
    match s.refunds refund_id with
    | none => (.error .RefundNotFound, s)
    | some refund =>
      if refund.status ≠ .Pending then (.error .RefundAlreadyProcessed, s)
      else
        (.ok (),
          setRefund s refund_id
            { refund with status := .Completed, processed_at := some now })

def get_payment_refunds (s : PPState) (payment_id : String) : List Refund :=
  (s.paymentRefunds payment_id).filterMap s.refunds

end PaymentProcessor

/-! ## Operation traces

`PPOp` captures one PaymentProcessor invocation (with the host timestamp
it observed), `ACOp` one AccessControl invocation, `SysOp` one invocation
of any operation of any component; running a trace folds the operations
over the store. -/

inductive PPOp where
  | create (now : Nat) (payment_id : String) (merchant_id : Addr)
      (amount : Int) (currency : Sym) (deposit_address : Addr) (expires_at : Nat)
  | verify (now : Nat) (payment_id : String) (transaction_hash : Hash)
      (payer_address : Addr) (amount_received : Int)
  | cancel (now : Nat) (payment_id : String)
  | get (payment_id : String)

def PPOp.apply (s : PPState) : PPOp → PPState
  | .create now pid m amt c d exp => (PaymentProcessor.create_payment s now pid m amt c d exp).2
  | .verify now pid tx payer amt => (PaymentProcessor.verify_payment s now pid tx payer amt).2
  | .cancel now pid => (PaymentProcessor.cancel_payment s now pid).2
  | .get _ => s

def runPP (s : PPState) (ops : List PPOp) : PPState :=
  ops.foldl PPOp.apply s

inductive ACOp where
  | grant (caller : Addr) (role : Sym) (account : Addr)
  | revoke (caller : Addr) (role : Sym) (account : Addr)
  | renounce (account : Addr) (role : Sym)
  | transfer (current_admin new_admin : Addr)

def ACOp.apply (s : ACState) : ACOp → ACState
  | .grant caller role account => (AccessControl.grant_role s caller role account).2
  | .revoke caller role account => (AccessControl.revoke_role s caller role account).2
  | .renounce account role => (AccessControl.renounce_role s account role).2
  | .transfer cur new => (AccessControl.transfer_admin s cur new).2

def runAC (s : ACState) (ops : List ACOp) : ACState :=
  ops.foldl ACOp.apply s

/-- States of AccessControl reachable from `initialize(admin)` by a trace
of the four mutating operations. -/
def acReach (admin : Addr) (ops : List ACOp) : ACState :=
  runAC (AccessControl.init acEmpty admin) ops

/-! ## Whole-system operations (for the atomicity-on-failure claim) -/

structure SysState where
  ac : ACState
  pp : PPState
  mr : MRState

inductive SysErr where
  | pp (e : Error)
  | ac (e : AccessControlError)
  | mr (e : MRError)
deriving DecidableEq, Repr

inductive SysOp where
  | acInit (admin : Addr)
  | grantRole (caller : Addr) (role : Sym) (account : Addr)
  | revokeRole (caller : Addr) (role : Sym) (account : Addr)
  | renounceRole (account : Addr) (role : Sym)
  | transferAdmin (current_admin new_admin : Addr)
  | createPayment (now : Nat) (payment_id : String) (merchant_id : Addr)
      (amount : Int) (currency : Sym) (deposit_address : Addr) (expires_at : Nat)
  | verifyPayment (now : Nat) (payment_id : String) (transaction_hash : Hash)
      (payer_address : Addr) (amount_received : Int)
  | cancelPayment (now : Nat) (payment_id : String)
  | getPayment (payment_id : String)
  | createRefund (now : Nat) (payment_id : String) (refund_amount : Int)
      (reason : String) (requester : Addr)
  | processRefund (now : Nat) (operator : Addr) (refund_id : String)
  | getRefund (refund_id : String)
  | getPaymentRefunds (payment_id : String)
  | mrInit (admin : Addr)
  | registerMerchant (now : Nat) (merchant_id : Addr)
      (business_name settlement_currency : String)
  | updateMerchant (merchant_id : Addr) (business_name : Option String)
      (settlement_currency : Option String) (active : Option Bool)
  | getMerchant (merchant_id : Addr)
  | verifyMerchant (admin merchant_id : Addr)

/-- Outcome of one system operation: the error it reported, if any, and
the store afterwards. Success values are not needed for the atomicity
claim and are dropped. -/
def SysOp.run (s : SysState) : SysOp → Option SysErr × SysState
  | .acInit admin => (none, { s with ac := AccessControl.init s.ac admin })
  | .grantRole caller role account =>
    let r := AccessControl.grant_role s.ac caller role account
    (match r.1 with | .error _ => some (SysErr.pp .AccessControlError) | .ok _ => none,
      { s with ac := r.2 })
  | .revokeRole caller role account =>
    let r := AccessControl.revoke_role s.ac caller role account
    (match r.1 with | .error _ => some (SysErr.pp .AccessControlError) | .ok _ => none,
      { s with ac := r.2 })
  | .renounceRole account role =>
    let r := AccessControl.renounce_role s.ac account role
    (match r.1 with | .error _ => some (SysErr.pp .AccessControlError) | .ok _ => none,
      { s with ac := r.2 })
  | .transferAdmin cur new =>
    let r := AccessControl.transfer_admin s.ac cur new
    (match r.1 with | .error _ => some (SysErr.pp .AccessControlError) | .ok _ => none,
      { s with ac := r.2 })
  | .createPayment now pid m amt c d exp =>
    let r := PaymentProcessor.create_payment s.pp now pid m amt c d exp
    (match r.1 with | .error e => some (SysErr.pp e) | .ok _ => none, { s with pp := r.2 })
  | .verifyPayment now pid tx payer amt =>
    let r := PaymentProcessor.verify_payment s.pp now pid tx payer amt
    (match r.1 with | .error e => some (SysErr.pp e) | .ok _ => none, { s with pp := r.2 })
  | .cancelPayment now pid =>
    let r := PaymentProcessor.cancel_payment s.pp now pid
    (match r.1 with | .error e => some (SysErr.pp e) | .ok _ => none, { s with pp := r.2 })
  | .getPayment pid =>
    (match PaymentProcessor.get_payment s.pp pid with
      | .error e => some (SysErr.pp e) | .ok _ => none, s)
  | .createRefund now pid amt reason req =>
    let r := PaymentProcessor.create_refund s.pp now pid amt reason req
    (match r.1 with | .error e => some (SysErr.pp e) | .ok _ => none, { s with pp := r.2 })
  | .processRefund now operator rid =>
    let r := PaymentProcessor.process_refund s.ac s.pp now operator rid
    (match r.1 with | .error e => some (SysErr.pp e) | .ok _ => none, { s with pp := r.2 })
  | .getRefund rid =>
    (match PaymentProcessor.get_refund s.pp rid with
      | .error e => some (SysErr.pp e) | .ok _ => none, s)
  | .getPaymentRefunds _ => (none, s)
  | .mrInit admin =>
    let r := MerchantRegistry.init s.mr admin
    (match r.1 with | .error e => some (SysErr.mr e) | .ok _ => none, { s with mr := r.2 })
  | .registerMerchant now mid bn sc =>
    let r := MerchantRegistry.register_merchant s.mr now mid bn sc
    (match r.1 with | .error e => some (SysErr.mr e) | .ok _ => none, { s with mr := r.2 })
  | .updateMerchant mid bn sc act =>
    let r := MerchantRegistry.update_merchant s.mr mid bn sc act
    (match r.1 with | .error e => some (SysErr.mr e) | .ok _ => none, { s with mr := r.2 })
  | .getMerchant mid =>
    (match MerchantRegistry.get_merchant s.mr mid with
      | .error e => some (SysErr.mr e) | .ok _ => none, s)
  | .verifyMerchant admin mid =>
    let r := MerchantRegistry.verify_merchant s.mr admin mid
    (match r.1 with | .error e => some (SysErr.mr e) | .ok _ => none, { s with mr := r.2 })

/-! ## Derived predicates and concrete fixtures -/

/-- Spec invariant of §3: the stored admin identity exists and holds the
`ADMIN` role. -/
def AdminInv (s : ACState) : Prop :=
  ∃ b, AccessControl.get_admin s = some b ∧ AccessControl.has_role s roleAdmin b = true

/-- The one operation shape that can break `AdminInv`: an admin-gated
`revoke_role` that revokes `ADMIN` from the currently stored admin. -/
def revokesAdminFromAdmin (s : ACState) : ACOp → Prop
  | .revoke _ role account => role = roleAdmin ∧ s.admin = some account
  | _ => False

/-- A trace is safe when no step revokes the `ADMIN` role from the
then-current admin. -/
def SafeTrace : ACState → List ACOp → Prop
  | _, [] => True
  | s, op :: rest => ¬ revokesAdminFromAdmin s op ∧ SafeTrace (ACOp.apply s op) rest

def sysEmpty : SysState := { ac := acEmpty, pp := ppEmpty, mr := mrEmpty }

/-- Concrete Pending charge used to instantiate theorems with hypotheses. -/
def chargeP1 : PaymentCharge :=
  { payment_id := "p1"
    merchant_id := 1
    amount := 5
    currency := "USDC"
    deposit_address := 2
    status := .Pending
    payer_address := none
    transaction_hash := none
    created_at := 0
    confirmed_at := none
    expires_at := 100 }

/-- Concrete Confirmed charge used to instantiate theorems with hypotheses. -/
def chargeC1 : PaymentCharge :=
  { chargeP1 with
    status := .Confirmed
    payer_address := some 3
    transaction_hash := some 7
    confirmed_at := some 50 }

/-- Store holding the single Pending charge `chargeP1` under "p1". -/
def sPending : PPState :=
  { ppEmpty with payments := fun k => if k = "p1" then some chargeP1 else none }

/-- Store holding the single Confirmed charge `chargeC1` under "p1". -/
def sConfirmed : PPState :=
  { ppEmpty with payments := fun k => if k = "p1" then some chargeC1 else none }

/-- Store whose refund counter already reached 10 (ten refunds created). -/
def sTenRefunds : PPState := { ppEmpty with refundCounter := 10 }

/-- Concrete merchant record used to instantiate theorems with hypotheses. -/
def merchantM1 : Merchant :=
  { merchant_id := 4
    business_name := "Acme"
    settlement_currency := "USDC"
    verified := true
    active := true
    created_at := 9 }

/-- MerchantRegistry store holding `merchantM1` under address 4, admin 8. -/
def mrWithM1 : MRState :=
  { merchants := fun k => if k = 4 then some merchantM1 else none, admin := some 8 }

/-- AccessControl store where address 1 holds `ADMIN` (admin key 1). -/
def acAdmin1 : ACState := AccessControl.init acEmpty 1

/-! ## Helper lemmas -/

namespace PaymentProcessor

theorem setPayment_payments (s : PPState) (pid k : String) (p : PaymentCharge) :
    (setPayment s pid p).payments k = if k = pid then some p else s.payments k := rfl

/-- A stored non-Pending charge survives one PaymentProcessor operation
unchanged. -/
theorem apply_preserves_nonpending (s : PPState) (op : PPOp) (pid : String)
    (p : PaymentCharge) (hp : s.payments pid = some p)
    (hnp : p.status ≠ .Pending) : (PPOp.apply s op).payments pid = some p := by
  cases op with
  | create now pid' m amt c d exp =>
    simp only [PPOp.apply, create_payment]
    split_ifs with h1 h2 h3
    · exact hp
    · exact hp
    · exact hp
    · rw [setPayment_payments, if_neg, hp]
      intro he
      subst he
      rw [hp] at h2
      exact h2 rfl
  | verify now pid' tx payer amt =>
    simp only [PPOp.apply, verify_payment]
    cases hq : s.payments pid' with
    | none => exact hp
    | some q =>
      simp only
      split_ifs with h1 h2 h3
      · exact hp
      · exact hp
      · rw [setPayment_payments, if_neg, hp]
        intro he
        subst he
        rw [hp] at hq
        cases hq
        exact h1 hnp
      · rw [setPayment_payments, if_neg, hp]
        intro he
        subst he
        rw [hp] at hq
        cases hq
        exact h1 hnp
  | cancel now pid' =>
    simp only [PPOp.apply, cancel_payment]
    cases hq : s.payments pid' with
    | none => exact hp
    | some q =>
      simp only
      split_ifs with h1 h2
      · exact hp
      · exact hp
      · rw [setPayment_payments, if_neg, hp]
        intro he
        subst he
        rw [hp] at hq
        cases hq
        exact h1 hnp
  | get pid' => exact hp

/-- A stored non-Pending charge survives any trace of PaymentProcessor
operations unchanged. -/
theorem runPP_preserves_nonpending (s : PPState) (ops : List PPOp) (pid : String)
    (p : PaymentCharge) (hp : s.payments pid = some p)
    (hnp : p.status ≠ .Pending) : (runPP s ops).payments pid = some p := by
  induction ops generalizing s with
  | nil => exact hp
  | cons op rest ih =>
    exact ih (PPOp.apply s op) (apply_preserves_nonpending s op pid p hp hnp)

/-- Verifying a stored non-Pending charge fails with
`PaymentAlreadyProcessed` and leaves the store untouched. -/
theorem verify_payment_nonpending (s : PPState) (now : Nat) (pid : String)
    (tx : Hash) (payer : Addr) (amt : Int) (p : PaymentCharge)
    (hp : s.payments pid = some p) (hnp : p.status ≠ .Pending) :
    verify_payment s now pid tx payer amt = (.error .PaymentAlreadyProcessed, s) := by
  simp only [verify_payment, hp]
  rw [if_pos hnp]

/-- Cancelling a stored non-Pending charge fails with
`PaymentAlreadyProcessed` and leaves the store untouched. -/
theorem cancel_payment_nonpending (s : PPState) (now : Nat) (pid : String)
    (p : PaymentCharge) (hp : s.payments pid = some p)
    (hnp : p.status ≠ .Pending) :
    cancel_payment s now pid = (.error .PaymentAlreadyProcessed, s) := by
  simp only [cancel_payment, hp]
  rw [if_pos hnp]

end PaymentProcessor

/-! ## Claim theorems -/

open PaymentProcessor in
/-- C1: once a stored PaymentCharge has status Confirmed, Expired, or
Failed, no trace of PaymentProcessor operations (create_payment,
verify_payment, cancel_payment, get_payment) changes its record, and
every mutating operation (verify_payment, cancel_payment) on it fails
with PaymentAlreadyProcessed, leaving the store unchanged. -/
theorem payment_status_monotonic (s : PPState) (ops : List PPOp) (pid : String)
    (p : PaymentCharge) (hp : s.payments pid = some p)
    (hterm : p.status = .Confirmed ∨ p.status = .Expired ∨ p.status = .Failed) :
    (runPP s ops).payments pid = some p ∧
    (∀ now tx payer amt,
      verify_payment (runPP s ops) now pid tx payer amt
        = (.error .PaymentAlreadyProcessed, runPP s ops)) ∧
    (∀ now,
      cancel_payment (runPP s ops) now pid
        = (.error .PaymentAlreadyProcessed, runPP s ops)) := by
  have hnp : p.status ≠ .Pending := by
    rcases hterm with h | h | h <;> rw [h] <;> intro hc <;> cases hc
  have hkeep := runPP_preserves_nonpending s ops pid p hp hnp
  refine ⟨hkeep, ?_, ?_⟩
  · intro now tx payer amt
    exact verify_payment_nonpending (runPP s ops) now pid tx payer amt p hkeep hnp
  · intro now
    exact cancel_payment_nonpending (runPP s ops) now pid p hkeep hnp

/-- Witness for C1 at a concrete Confirmed charge and a concrete trace. -/
theorem payment_status_monotonic_witness :
    (runPP sConfirmed [PPOp.cancel 2000 "p1", PPOp.get "p1"]).payments "p1"
      = some chargeC1 :=
  (payment_status_monotonic sConfirmed [PPOp.cancel 2000 "p1", PPOp.get "p1"]
    "p1" chargeC1 rfl (Or.inl rfl)).1

open PaymentProcessor in
/-- C4: verifying a stored Pending, unexpired payment with a mismatching
amount returns Ok Failed (not an error) and persists the record with
status Failed and payer_address, transaction_hash, confirmed_at still
unset. -/
theorem verify_payment_mismatch (s : PPState) (now : Nat) (pid : String)
    (tx : Hash) (payer : Addr) (amt : Int) (p : PaymentCharge)
    (hp : s.payments pid = some p) (hpend : p.status = .Pending)
    (hexp : now ≤ p.expires_at) (hamt : amt ≠ p.amount)
    (hpayer : p.payer_address = none) (htx : p.transaction_hash = none)
    (hconf : p.confirmed_at = none) :
    verify_payment s now pid tx payer amt
      = (.ok .Failed, setPayment s pid { p with status := .Failed }) ∧
    (verify_payment s now pid tx payer amt).2.payments pid
      = some { p with status := .Failed } ∧
    ({ p with status := PaymentStatus.Failed }).payer_address = none ∧
    ({ p with status := PaymentStatus.Failed }).transaction_hash = none ∧
    ({ p with status := PaymentStatus.Failed }).confirmed_at = none := by
  have heq : verify_payment s now pid tx payer amt
      = (.ok .Failed, setPayment s pid { p with status := .Failed }) := by
    simp only [verify_payment, hp]
    rw [if_neg (by rw [hpend]; intro hc; exact hc rfl),
      if_neg (by exact Nat.not_lt.mpr hexp), if_pos hamt]
  refine ⟨heq, ?_, hpayer, htx, hconf⟩
  rw [heq, setPayment_payments, if_pos rfl]

open PaymentProcessor in
/-- Witness for C4 at the concrete Pending charge `chargeP1`. -/
theorem verify_payment_mismatch_witness :
    verify_payment sPending 10 "p1" 7 3 4
      = (.ok .Failed, setPayment sPending "p1" { chargeP1 with status := .Failed }) :=
  (verify_payment_mismatch sPending 10 "p1" 7 3 4 chargeP1 rfl rfl
    (by decide) (by decide) rfl rfl rfl).1

open PaymentProcessor in
/-- C5: verifying a stored Pending, unexpired payment with the exact
stored amount returns Ok Confirmed and persists the record with status
Confirmed, the given payer, the given transaction hash and
confirmed_at = now; afterwards every verify_payment or cancel_payment on
that payment_id, after any further trace, fails with
PaymentAlreadyProcessed. -/
theorem verify_payment_success (s : PPState) (now : Nat) (pid : String)
    (tx : Hash) (payer : Addr) (amt : Int) (p : PaymentCharge)
    (hp : s.payments pid = some p) (hpend : p.status = .Pending)
    (hexp : now ≤ p.expires_at) (hamt : amt = p.amount) :
    verify_payment s now pid tx payer amt
      = (.ok .Confirmed,
         setPayment s pid
           { p with
             status := .Confirmed
             payer_address := some payer
             transaction_hash := some tx
             confirmed_at := some now }) ∧
    (∀ ops now2 tx2 payer2 amt2,
      verify_payment (runPP (verify_payment s now pid tx payer amt).2 ops)
          now2 pid tx2 payer2 amt2
        = (.error .PaymentAlreadyProcessed,
           runPP (verify_payment s now pid tx payer amt).2 ops)) ∧
    (∀ ops now2,
      cancel_payment (runPP (verify_payment s now pid tx payer amt).2 ops) now2 pid
        = (.error .PaymentAlreadyProcessed,
           runPP (verify_payment s now pid tx payer amt).2 ops)) := by
  have heq : verify_payment s now pid tx payer amt
      = (.ok .Confirmed,
         setPayment s pid
           { p with
             status := .Confirmed
             payer_address := some payer
             transaction_hash := some tx
             confirmed_at := some now }) := by
    simp only [verify_payment, hp]
    rw [if_neg (by rw [hpend]; intro hc; exact hc rfl),
      if_neg (by exact Nat.not_lt.mpr hexp), if_neg (by rw [hamt]; intro hc; exact hc rfl)]
  have hstored : (verify_payment s now pid tx payer amt).2.payments pid
      = some { p with
               status := .Confirmed
               payer_address := some payer
               transaction_hash := some tx
               confirmed_at := some now } := by
    rw [heq, setPayment_payments, if_pos rfl]
  have hnp : ({ p with
               status := PaymentStatus.Confirmed
               payer_address := some payer
               transaction_hash := some tx
               confirmed_at := some now }).status ≠ PaymentStatus.Pending := by
    intro hc; cases hc
  refine ⟨heq, ?_, ?_⟩
  · intro ops now2 tx2 payer2 amt2
    exact verify_payment_nonpending _ now2 pid tx2 payer2 amt2 _
      (runPP_preserves_nonpending _ ops pid _ hstored hnp) hnp
  · intro ops now2
    exact cancel_payment_nonpending _ now2 pid _
      (runPP_preserves_nonpending _ ops pid _ hstored hnp) hnp

open PaymentProcessor in
/-- Witness for C5 at the concrete Pending charge `chargeP1`. -/
theorem verify_payment_success_witness :
    verify_payment sPending 10 "p1" 7 3 5
      = (.ok .Confirmed,
         setPayment sPending "p1"
           { chargeP1 with
             status := .Confirmed
             payer_address := some 3
             transaction_hash := some 7
             confirmed_at := some 10 }) :=
  (verify_payment_success sPending 10 "p1" 7 3 5 chargeP1 rfl rfl
    (by decide) (by decide)).1

open PaymentProcessor in
/-- C6: cancelling a stored Pending payment fails with the Unauthorized
error code and leaves the store unchanged whenever now ≤ expires_at;
when now > expires_at it succeeds, storing the record with status
Expired, and afterwards every cancel_payment on that payment_id, after
any further trace, fails with PaymentAlreadyProcessed. -/
theorem cancel_payment_expiry_guard (s : PPState) (pid : String)
    (p : PaymentCharge) (hp : s.payments pid = some p)
    (hpend : p.status = .Pending) :
    (∀ now, now ≤ p.expires_at →
      cancel_payment s now pid = (.error .Unauthorized, s)) ∧
    (∀ now, p.expires_at < now →
      cancel_payment s now pid
        = (.ok (), setPayment s pid { p with status := .Expired }) ∧
      (∀ ops now2,
        cancel_payment (runPP (setPayment s pid { p with status := .Expired }) ops)
            now2 pid
          = (.error .PaymentAlreadyProcessed,
             runPP (setPayment s pid { p with status := .Expired }) ops))) := by
  have hnotpend : ¬ p.status ≠ PaymentStatus.Pending := by
    rw [hpend]; intro hc; exact hc rfl
  constructor
  · intro now hnow
    simp only [cancel_payment, hp]
    rw [if_neg hnotpend, if_pos hnow]
  · intro now hnow
    have heq : cancel_payment s now pid
        = (.ok (), setPayment s pid { p with status := .Expired }) := by
      simp only [cancel_payment, hp]
      rw [if_neg hnotpend, if_neg (by exact Nat.not_le.mpr hnow)]
    have hnp : ({ p with status := PaymentStatus.Expired }).status
        ≠ PaymentStatus.Pending := by intro hc; cases hc
    have hstored : (setPayment s pid { p with status := .Expired }).payments pid
        = some { p with status := .Expired } := by
      rw [setPayment_payments, if_pos rfl]
    refine ⟨heq, ?_⟩
    intro ops now2
    exact cancel_payment_nonpending _ now2 pid _
      (runPP_preserves_nonpending _ ops pid _ hstored hnp) hnp

open PaymentProcessor in
/-- Witness for C6 at the concrete Pending charge `chargeP1`, with a
pre-expiry failing call and a post-expiry succeeding call. -/
theorem cancel_payment_expiry_guard_witness :
    cancel_payment sPending 100 "p1" = (.error .Unauthorized, sPending) ∧
    cancel_payment sPending 101 "p1"
      = (.ok (), setPayment sPending "p1" { chargeP1 with status := .Expired }) :=
  ⟨(cancel_payment_expiry_guard sPending "p1" chargeP1 rfl rfl).1 100 (by decide),
   ((cancel_payment_expiry_guard sPending "p1" chargeP1 rfl rfl).2 101 (by decide)).1⟩

open AccessControl in
/-- C8: a successful transfer_admin(a, b) leaves b holding ADMIN and
get_admin() = b; when a ≠ b, a no longer holds ADMIN; when a = b the
revoke-then-grant leaves a holding ADMIN with get_admin() = a. -/
theorem transfer_admin_post (s : ACState) (a b : Addr)
    (h : (transfer_admin s a b).1 = .ok ()) :
    has_role (transfer_admin s a b).2 roleAdmin b = true ∧
    get_admin (transfer_admin s a b).2 = some b ∧
    (a ≠ b → has_role (transfer_admin s a b).2 roleAdmin a = false) ∧
    (a = b → has_role (transfer_admin s a b).2 roleAdmin a = true ∧
             get_admin (transfer_admin s a b).2 = some a) := by
  simp only [AccessControl.transfer_admin] at h ⊢
  split_ifs at h ⊢ with hg
  · refine ⟨?_, rfl, ?_, ?_⟩
    · simp [AccessControl.has_role, AccessControl.grant_role_internal,
        AccessControl.revoke_role_internal]
    · intro hne
      simp [AccessControl.has_role, AccessControl.grant_role_internal,
        AccessControl.revoke_role_internal, hne]
    · intro he
      subst he
      refine ⟨?_, rfl⟩
      simp [AccessControl.has_role, AccessControl.grant_role_internal,
        AccessControl.revoke_role_internal]

open AccessControl in
/-- Witness for C8: transferring admin from 1 to 2 in a store where 1 is
the initialized admin. -/
theorem transfer_admin_post_witness :
    has_role (transfer_admin acAdmin1 1 2).2 roleAdmin 2 = true ∧
    get_admin (transfer_admin acAdmin1 1 2).2 = some 2 :=
  ⟨(transfer_admin_post acAdmin1 1 2 rfl).1,
   (transfer_admin_post acAdmin1 1 2 rfl).2.1⟩

/-- C2 counterexample: from initialize(0), the single admin-gated call
revoke_role(0, ADMIN, 0) reaches a state whose stored admin (still
address 0) no longer holds the ADMIN role, refuting the claimed
invariant over reachable states. -/
theorem admin_invariant_counterexample :
    AccessControl.get_admin (acReach 0 [ACOp.revoke 0 roleAdmin 0]) = some 0 ∧
    AccessControl.has_role (acReach 0 [ACOp.revoke 0 roleAdmin 0]) roleAdmin 0
      = false :=
  ⟨rfl, rfl⟩

/-- One safe AccessControl operation preserves the admin-holds-ADMIN
invariant. -/
theorem apply_preserves_adminInv (s : ACState) (op : ACOp)
    (hinv : AdminInv s) (hsafe : ¬ revokesAdminFromAdmin s op) :
    AdminInv (ACOp.apply s op) := by
  obtain ⟨b, hb, hrole⟩ := hinv
  cases op with
  | grant caller role account =>
    simp only [ACOp.apply, AccessControl.grant_role]
    split_ifs with h1 h2
    · exact ⟨b, hb, hrole⟩
    · exact ⟨b, hb, hrole⟩
    · refine ⟨b, hb, ?_⟩
      simp only [AccessControl.has_role, AccessControl.grant_role_internal]
        at hrole ⊢
      split_ifs with hc
      · rfl
      · exact hrole
  | revoke caller role account =>
    simp only [ACOp.apply, AccessControl.revoke_role]
    split_ifs with h1 h2
    · exact ⟨b, hb, hrole⟩
    · exact ⟨b, hb, hrole⟩
    · refine ⟨b, hb, ?_⟩
      simp only [AccessControl.has_role, AccessControl.revoke_role_internal]
        at hrole ⊢
      split_ifs with hc
      · exact absurd ⟨hc.1.symm, hc.2 ▸ hb⟩ hsafe
      · exact hrole
  | renounce account role =>
    simp only [ACOp.apply, AccessControl.renounce_role]
    split_ifs with h1 h2
    · exact ⟨b, hb, hrole⟩
    · exact ⟨b, hb, hrole⟩
    · refine ⟨b, hb, ?_⟩
      simp only [AccessControl.has_role, AccessControl.revoke_role_internal]
        at hrole ⊢
      split_ifs with hc
      · exact absurd hc.1.symm h1
      · exact hrole
  | transfer cur new =>
    simp only [ACOp.apply, AccessControl.transfer_admin]
    split_ifs with h1
    · exact ⟨b, hb, hrole⟩
    · refine ⟨new, rfl, ?_⟩
      simp [AccessControl.has_role, AccessControl.grant_role_internal]

/-- A safe trace preserves the admin-holds-ADMIN invariant. -/
theorem runAC_adminInv (s : ACState) (ops : List ACOp)
    (hinv : AdminInv s) (hsafe : SafeTrace s ops) : AdminInv (runAC s ops) := by
  induction ops generalizing s with
  | nil => exact hinv
  | cons op rest ih =>
    exact ih (ACOp.apply s op) (apply_preserves_adminInv s op hinv hsafe.1) hsafe.2

/-- AccessControl initialization establishes the admin-holds-ADMIN
invariant. -/
theorem adminInv_init (s : ACState) (a : Addr) : AdminInv (AccessControl.init s a) := by
  refine ⟨a, rfl, ?_⟩
  simp [AccessControl.has_role, AccessControl.init, AccessControl.grant_role_internal]

/-- C2 amended: in every state reachable from initialize(admin) by a
trace of grant_role, revoke_role, renounce_role and transfer_admin in
which no step revokes the ADMIN role from the then-current admin, the
identity returned by get_admin() exists and holds the ADMIN role. -/
theorem admin_holds_admin_of_safe_trace (a : Addr) (ops : List ACOp)
    (hsafe : SafeTrace (AccessControl.init acEmpty a) ops) :
    ∃ b, AccessControl.get_admin (acReach a ops) = some b ∧
         AccessControl.has_role (acReach a ops) roleAdmin b = true :=
  runAC_adminInv (AccessControl.init acEmpty a) ops (adminInv_init acEmpty a) hsafe

/-- Witness for the amended C2 at a concrete safe trace: initialize(5)
followed by transfer_admin(5, 7). -/
theorem admin_holds_admin_of_safe_trace_witness :
    ∃ b, AccessControl.get_admin (acReach 5 [ACOp.transfer 5 7]) = some b ∧
         AccessControl.has_role (acReach 5 [ACOp.transfer 5 7]) roleAdmin b
           = true :=
  admin_holds_admin_of_safe_trace 5 [ACOp.transfer 5 7]
    (by simp [SafeTrace, revokesAdminFromAdmin])

open MerchantRegistry in
/-- C9: a successful update_merchant on a stored merchant overwrites
exactly the supplied fields (business_name, settlement_currency, active),
leaves verified, created_at and merchant_id untouched, and touches no
other merchant record and not the admin key. -/
theorem update_merchant_frame (s : MRState) (mid : Addr) (m : Merchant)
    (bn sc : Option String) (act : Option Bool)
    (hm : s.merchants mid = some m) :
    (update_merchant s mid bn sc act).1 = .ok () ∧
    (update_merchant s mid bn sc act).2.merchants mid
      = some { m with
               business_name := bn.getD m.business_name
               settlement_currency := sc.getD m.settlement_currency
               active := act.getD m.active } ∧
    (∀ q, (update_merchant s mid bn sc act).2.merchants mid = some q →
      q.verified = m.verified ∧ q.created_at = m.created_at ∧
      q.merchant_id = m.merchant_id) ∧
    (∀ other, other ≠ mid →
      (update_merchant s mid bn sc act).2.merchants other = s.merchants other) ∧
    (update_merchant s mid bn sc act).2.admin = s.admin := by
  have heq : update_merchant s mid bn sc act
      = (.ok (),
         { s with merchants := fun k =>
             if k = mid then
               some { m with
                      business_name := bn.getD m.business_name
                      settlement_currency := sc.getD m.settlement_currency
                      active := act.getD m.active }
             else s.merchants k }) := by
    simp only [update_merchant, hm]
    cases bn <;> cases sc <;> cases act <;> rfl
  refine ⟨by rw [heq], ?_, ?_, ?_, by rw [heq]⟩
  · rw [heq]; simp
  · intro q hq
    rw [heq] at hq
    simp only [if_pos rfl] at hq
    cases hq
    exact ⟨rfl, rfl, rfl⟩
  · intro other hne
    rw [heq]
    simp [hne]

open MerchantRegistry in
/-- Witness for C9: updating only the active flag of the stored merchant
`merchantM1`. -/
theorem update_merchant_frame_witness :
    (update_merchant mrWithM1 4 none none (some false)).2.merchants 4
      = some { merchantM1 with active := false } :=
  (update_merchant_frame mrWithM1 4 merchantM1 none none (some false) rfl).2.1

open MerchantRegistry in
/-- C10: verify_merchant in a store where no admin was ever set fails
with Unauthorized (not a distinct not-initialized error) and leaves the
whole store, merchant records included, unchanged. -/
theorem verify_merchant_uninitialized (s : MRState) (admin mid : Addr)
    (h : s.admin = none) :
    verify_merchant s admin mid = (.error .Unauthorized, s) := by
  simp only [verify_merchant, h]

open MerchantRegistry in
/-- Witness for C10 on the empty MerchantRegistry store. -/
theorem verify_merchant_uninitialized_witness :
    verify_merchant mrEmpty 3 4 = (.error .Unauthorized, mrEmpty) :=
  verify_merchant_uninitialized mrEmpty 3 4 rfl

open PaymentProcessor in
/-- C3 evaluation: with the refund counter at 10 (ten refunds already
created), the next two successful create_refund calls both return the
same refund_id "refund_n" — the literal table of lib.rs lines 119–131
collides for every counter above 10, so returned refund ids are not
unique. -/
theorem refund_id_collision_after_ten :
    (create_refund sTenRefunds 0 "payA" 5 "dup" 1).1 = .ok "refund_n" ∧
    (create_refund (create_refund sTenRefunds 0 "payA" 5 "dup" 1).2
        0 "payB" 7 "dup" 2).1 = .ok "refund_n" :=
  ⟨rfl, rfl⟩

/-! ## Error-frame lemmas: a failing call leaves its store untouched -/

theorem grant_role_error_frame (s : ACState) (c : Addr) (r : Sym) (a : Addr)
    (e : AccessControlError)
    (h : (AccessControl.grant_role s c r a).1 = .error e) :
    (AccessControl.grant_role s c r a).2 = s := by
  simp only [AccessControl.grant_role] at h ⊢
  split_ifs at h ⊢ <;> rfl

theorem revoke_role_error_frame (s : ACState) (c : Addr) (r : Sym) (a : Addr)
    (e : AccessControlError)
    (h : (AccessControl.revoke_role s c r a).1 = .error e) :
    (AccessControl.revoke_role s c r a).2 = s := by
  simp only [AccessControl.revoke_role] at h ⊢
  split_ifs at h ⊢ <;> rfl

theorem renounce_role_error_frame (s : ACState) (a : Addr) (r : Sym)
    (e : AccessControlError)
    (h : (AccessControl.renounce_role s a r).1 = .error e) :
    (AccessControl.renounce_role s a r).2 = s := by
  simp only [AccessControl.renounce_role] at h ⊢
  split_ifs at h ⊢ <;> rfl

theorem transfer_admin_error_frame (s : ACState) (a b : Addr)
    (e : AccessControlError)
    (h : (AccessControl.transfer_admin s a b).1 = .error e) :
    (AccessControl.transfer_admin s a b).2 = s := by
  simp only [AccessControl.transfer_admin] at h ⊢
  split_ifs at h ⊢ <;> rfl

theorem create_payment_error_frame (s : PPState) (now : Nat) (pid : String)
    (m : Addr) (amt : Int) (c : Sym) (d : Addr) (exp : Nat) (e : Error)
    (h : (PaymentProcessor.create_payment s now pid m amt c d exp).1 = .error e) :
    (PaymentProcessor.create_payment s now pid m amt c d exp).2 = s := by
  simp only [PaymentProcessor.create_payment] at h ⊢
  split_ifs at h ⊢ <;> rfl

theorem verify_payment_error_frame (s : PPState) (now : Nat) (pid : String)
    (tx : Hash) (payer : Addr) (amt : Int) (e : Error)
    (h : (PaymentProcessor.verify_payment s now pid tx payer amt).1 = .error e) :
    (PaymentProcessor.verify_payment s now pid tx payer amt).2 = s := by
  cases hq : s.payments pid with
  | none => simp only [PaymentProcessor.verify_payment, hq]
  | some q =>
    simp only [PaymentProcessor.verify_payment, hq] at h ⊢
    split_ifs at h ⊢ <;> rfl

theorem cancel_payment_error_frame (s : PPState) (now : Nat) (pid : String)
    (e : Error)
    (h : (PaymentProcessor.cancel_payment s now pid).1 = .error e) :
    (PaymentProcessor.cancel_payment s now pid).2 = s := by
  cases hq : s.payments pid with
  | none => simp only [PaymentProcessor.cancel_payment, hq]
  | some q =>
    simp only [PaymentProcessor.cancel_payment, hq] at h ⊢
    split_ifs at h ⊢ <;> rfl

theorem create_refund_error_frame (s : PPState) (now : Nat) (pid : String)
    (amt : Int) (reason : String) (req : Addr) (e : Error)
    (h : (PaymentProcessor.create_refund s now pid amt reason req).1 = .error e) :
    (PaymentProcessor.create_refund s now pid amt reason req).2 = s := by
  simp only [PaymentProcessor.create_refund] at h ⊢
  split_ifs at h ⊢ <;> rfl

theorem process_refund_error_frame (ac : ACState) (s : PPState) (now : Nat)
    (operator : Addr) (rid : String) (e : Error)
    (h : (PaymentProcessor.process_refund ac s now operator rid).1 = .error e) :
    (PaymentProcessor.process_refund ac s now operator rid).2 = s := by
  cases hq : s.refunds rid with
  | none =>
    simp only [PaymentProcessor.process_refund, hq] at h ⊢
    split_ifs at h ⊢ <;> rfl
  | some q =>
    simp only [PaymentProcessor.process_refund, hq] at h ⊢
    split_ifs at h ⊢ <;> rfl

theorem mr_init_error_frame (s : MRState) (a : Addr) (e : MRError)
    (h : (MerchantRegistry.init s a).1 = .error e) :
    (MerchantRegistry.init s a).2 = s := by
  simp only [MerchantRegistry.init] at h ⊢
  split_ifs at h ⊢ <;> rfl

theorem register_merchant_error_frame (s : MRState) (now : Nat) (mid : Addr)
    (bn sc : String) (e : MRError)
    (h : (MerchantRegistry.register_merchant s now mid bn sc).1 = .error e) :
    (MerchantRegistry.register_merchant s now mid bn sc).2 = s := by
  simp only [MerchantRegistry.register_merchant] at h ⊢
  split_ifs at h ⊢ <;> rfl

theorem update_merchant_error_frame (s : MRState) (mid : Addr)
    (bn sc : Option String) (act : Option Bool) (e : MRError)
    (h : (MerchantRegistry.update_merchant s mid bn sc act).1 = .error e) :
    (MerchantRegistry.update_merchant s mid bn sc act).2 = s := by
  cases hq : s.merchants mid with
  | none => simp only [MerchantRegistry.update_merchant, hq]
  | some m =>
    simp only [MerchantRegistry.update_merchant, hq] at h
    exact Except.noConfusion h

theorem verify_merchant_error_frame (s : MRState) (a mid : Addr) (e : MRError)
    (h : (MerchantRegistry.verify_merchant s a mid).1 = .error e) :
    (MerchantRegistry.verify_merchant s a mid).2 = s := by
  cases ha : s.admin with
  | none => simp only [MerchantRegistry.verify_merchant, ha]
  | some ad =>
    cases hq : s.merchants mid with
    | none =>
      simp only [MerchantRegistry.verify_merchant, ha, hq] at h ⊢
      split_ifs at h ⊢ <;> rfl
    | some m =>
      simp only [MerchantRegistry.verify_merchant, ha, hq] at h ⊢
      split_ifs at h ⊢ <;> rfl

/-- C7: every operation of every component that reports an error leaves
the whole persistent store unchanged, and repeating a successful
create_payment with the same arguments fails with PaymentAlreadyExists,
leaving storage exactly as the first call left it. -/
theorem atomicity_on_failure (s : SysState) (op : SysOp) :
    (∀ e, (SysOp.run s op).1 = some e → (SysOp.run s op).2 = s) ∧
    (∀ (s0 : PPState) (now now2 : Nat) (pid : String) (m : Addr) (amt : Int)
        (c : Sym) (d : Addr) (exp : Nat) (p : PaymentCharge) (s1 : PPState),
      PaymentProcessor.create_payment s0 now pid m amt c d exp = (.ok p, s1) →
      PaymentProcessor.create_payment s1 now2 pid m amt c d exp
        = (.error .PaymentAlreadyExists, s1)) := by
  constructor
  · intro e h
    cases op with
    | acInit a => exact Option.noConfusion h
    | grantRole c r a =>
      simp only [SysOp.run] at h ⊢
      cases hr : (AccessControl.grant_role s.ac c r a).1 with
      | error e2 => rw [grant_role_error_frame s.ac c r a e2 hr]
      | ok v => rw [hr] at h; exact Option.noConfusion h
    | revokeRole c r a =>
      simp only [SysOp.run] at h ⊢
      cases hr : (AccessControl.revoke_role s.ac c r a).1 with
      | error e2 => rw [revoke_role_error_frame s.ac c r a e2 hr]
      | ok v => rw [hr] at h; exact Option.noConfusion h
    | renounceRole a r =>
      simp only [SysOp.run] at h ⊢
      cases hr : (AccessControl.renounce_role s.ac a r).1 with
      | error e2 => rw [renounce_role_error_frame s.ac a r e2 hr]
      | ok v => rw [hr] at h; exact Option.noConfusion h
    | transferAdmin a b =>
      simp only [SysOp.run] at h ⊢
      cases hr : (AccessControl.transfer_admin s.ac a b).1 with
      | error e2 => rw [transfer_admin_error_frame s.ac a b e2 hr]
      | ok v => rw [hr] at h; exact Option.noConfusion h
    | createPayment now pid m amt c d exp =>
      simp only [SysOp.run] at h ⊢
      cases hr : (PaymentProcessor.create_payment s.pp now pid m amt c d exp).1 with
      | error e2 => rw [create_payment_error_frame s.pp now pid m amt c d exp e2 hr]
      | ok v => rw [hr] at h; exact Option.noConfusion h
    | verifyPayment now pid tx payer amt =>
      simp only [SysOp.run] at h ⊢
      cases hr : (PaymentProcessor.verify_payment s.pp now pid tx payer amt).1 with
      | error e2 => rw [verify_payment_error_frame s.pp now pid tx payer amt e2 hr]
      | ok v => rw [hr] at h; exact Option.noConfusion h
    | cancelPayment now pid =>
      simp only [SysOp.run] at h ⊢
      cases hr : (PaymentProcessor.cancel_payment s.pp now pid).1 with
      | error e2 => rw [cancel_payment_error_frame s.pp now pid e2 hr]
      | ok v => rw [hr] at h; exact Option.noConfusion h
    | getPayment pid => exact rfl
    | createRefund now pid amt reason req =>
      simp only [SysOp.run] at h ⊢
      cases hr : (PaymentProcessor.create_refund s.pp now pid amt reason req).1 with
      | error e2 => rw [create_refund_error_frame s.pp now pid amt reason req e2 hr]
      | ok v => rw [hr] at h; exact Option.noConfusion h
    | processRefund now operator rid =>
      simp only [SysOp.run] at h ⊢
      cases hr : (PaymentProcessor.process_refund s.ac s.pp now operator rid).1 with
      | error e2 => rw [process_refund_error_frame s.ac s.pp now operator rid e2 hr]
      | ok v => rw [hr] at h; exact Option.noConfusion h
    | getRefund rid => exact rfl
    | getPaymentRefunds pid => exact Option.noConfusion h
    | mrInit a =>
      simp only [SysOp.run] at h ⊢
      cases hr : (MerchantRegistry.init s.mr a).1 with
      | error e2 => rw [mr_init_error_frame s.mr a e2 hr]
      | ok v => rw [hr] at h; exact Option.noConfusion h
    | registerMerchant now mid bn sc =>
      simp only [SysOp.run] at h ⊢
      cases hr : (MerchantRegistry.register_merchant s.mr now mid bn sc).1 with
      | error e2 => rw [register_merchant_error_frame s.mr now mid bn sc e2 hr]
      | ok v => rw [hr] at h; exact Option.noConfusion h
    | updateMerchant mid bn sc act =>
      simp only [SysOp.run] at h ⊢
      cases hr : (MerchantRegistry.update_merchant s.mr mid bn sc act).1 with
      | error e2 => rw [update_merchant_error_frame s.mr mid bn sc act e2 hr]
      | ok v => rw [hr] at h; exact Option.noConfusion h
    | getMerchant mid => exact rfl
    | verifyMerchant a mid =>
      simp only [SysOp.run] at h ⊢
      cases hr : (MerchantRegistry.verify_merchant s.mr a mid).1 with
      | error e2 => rw [verify_merchant_error_frame s.mr a mid e2 hr]
      | ok v => rw [hr] at h; exact Option.noConfusion h
  · intro s0 now now2 pid m amt c d exp p s1 hok
    simp only [PaymentProcessor.create_payment] at hok
    split_ifs at hok with h1 h2 h3
    · injection hok with hfst hsnd; exact Except.noConfusion hfst
    · injection hok with hfst hsnd; exact Except.noConfusion hfst
    · injection hok with hfst hsnd; exact Except.noConfusion hfst
    · injection hok with hfst hsnd
      subst hsnd
      rw [PaymentProcessor.create_payment, if_neg h1, if_pos (by
        rw [PaymentProcessor.setPayment_payments, if_pos rfl]; rfl)]

open PaymentProcessor in
/-- Witness for C7: a failing read on the empty store changes nothing,
and a concrete repeated create_payment fails with PaymentAlreadyExists. -/
theorem atomicity_on_failure_witness :
    (SysOp.run sysEmpty (SysOp.getPayment "x")).2 = sysEmpty ∧
    create_payment (setPayment ppEmpty "p1" chargeP1) 3 "p1" 1 5 "USDC" 2 100
      = (.error .PaymentAlreadyExists, setPayment ppEmpty "p1" chargeP1) := by
  constructor
  · exact (atomicity_on_failure sysEmpty (SysOp.getPayment "x")).1
      (SysErr.pp .PaymentNotFound) rfl
  · exact (atomicity_on_failure sysEmpty (SysOp.getPayment "x")).2
      ppEmpty 0 3 "p1" 1 5 "USDC" 2 100 chargeP1
      (setPayment ppEmpty "p1" chargeP1) rfl

end Fluxapay
